import Mathlib

/-
Verification of the knowledge-retrieval-augmented response pipeline of the
telegram voice bot repository.

Python strings are modelled as lists of characters (`Str`).  The SQLite
backing store of `database.py` is modelled as an in-memory state `DBState`:
one table of knowledge rows and one table of conversation rows, plus the
auto-increment counter and a strictly monotone clock standing for
`CURRENT_TIMESTAMP` (each insert happens at a fresh, strictly later tick).
The SQL fragments of `database.py` are translated operation by operation:
`LIKE` gets the real SQLite semantics (ASCII-case-insensitive comparison,
with the wildcards percent and underscore), `ORDER BY ... DESC` becomes a
sort by the relevant key descending, `LIMIT` becomes `List.take`.
The `tags` TEXT column stores `json.dumps tags` when `tags` is truthy and
SQL NULL otherwise; since `json.dumps` is injective on lists of strings and
`json.loads` inverts it (a guarantee of the json library, which is external
to this repository), the column is modelled as `Option (List Str)` where
`some ts` stands for the serialized form of `ts` and `none` stands for NULL.

External HTTP providers (Whisper transcription, chat completion, ElevenLabs
synthesis) are modelled as oracles indexed by call number, so the number of
calls a pipeline makes to each provider is explicit in the state
(`SvcState`): `whisperCalls`, `chatCalls`, `ttsCalls`.
-/

namespace Bot

/-- Characters of a Python string. -/
abbrev Str := List Char

/-- ASCII lowercasing of a single character, the folding used by the default
SQLite `LIKE` (which is case-insensitive exactly on the ASCII letters) and an
adequate model of `str.lower` for the ASCII-only phrases of this code base. -/
def asciiLower (c : Char) : Char :=
  if 'A' ≤ c ∧ c ≤ 'Z' then Char.ofNat (c.toNat + 32) else c

/-- Characterwise ASCII lowercasing of a string. -/
def lowerStr (s : Str) : Str := s.map asciiLower

/-- The Python substring test `needle in haystack`. -/
def pyIn (needle haystack : Str) : Bool := decide (needle <:+: haystack)

/-- SQLite `LIKE` pattern matching: percent matches any (possibly empty)
sequence of characters, underscore matches exactly one character, and any
other pattern character matches a single character up to ASCII case folding.
The whole string must be consumed. -/
def likeMatch : Str → Str → Bool
  | [], s => s.isEmpty
  | p :: ps, s =>
    if p = '%' then s.tails.any fun t => likeMatch ps t
    else if p = '_' then
      match s with
      | [] => false
      | _ :: s' => likeMatch ps s'
    else
      match s with
      | [] => false
      | c :: s' => (asciiLower p == asciiLower c) && likeMatch ps s'

/-- The pattern built by `search_knowledge` via the f-string percent query
percent. -/
def likePattern (q : Str) : Str := '%' :: (q ++ ['%'])

/-- One row of the `ai_knowledge` table.  `tagsJson` is the nullable TEXT
column holding the json serialization of the tag list (see file header). -/
structure KnowledgeRow where
  id : Nat
  title : Str
  content : Str
  category : Option Str
  tagsJson : Option (List Str)
  created_at : Nat
  updated_at : Nat
deriving DecidableEq

/-- The read side of the tags column: `json.loads(row[4]) if row[4] else []`. -/
def KnowledgeRow.tagList (r : KnowledgeRow) : List Str :=
  match r.tagsJson with
  | some ts => ts
  | none => []

/-- One row of the `conversation_history` table. -/
structure ConvRow where
  user_id : Int
  message : Str
  response : Str
  timestamp : Nat
deriving DecidableEq

/-- The persistent state behind `AIKnowledgeDatabase`: the two tables in
insertion (rowid) order, the auto-increment counter, and the clock. -/
structure DBState where
  knowledge : List KnowledgeRow
  nextId : Nat
  conv : List ConvRow
  clock : Nat
deriving DecidableEq

/-- Python truthiness of an optional list (`if tags:`): false for `None` and
for the empty list. -/
def pyTruthyList {α : Type} : Option (List α) → Bool
  | none => false
  | some l => !l.isEmpty

/-- Python truthiness of an optional integer (`if user_id:`): false for
`None` and for zero. -/
def pyTruthyInt : Option Int → Bool
  | none => false
  | some n => n != 0

/-- `AIKnowledgeDatabase.add_knowledge`: inserts one row; the tags column is
`json.dumps(tags) if tags else None`. -/
def add_knowledge (s : DBState) (title content : Str) (category : Option Str)
    (tags : Option (List Str)) : DBState :=
  let tags_json : Option (List Str) := if pyTruthyList tags then tags else none
  { s with
    knowledge :=
      s.knowledge ++ [⟨s.nextId, title, content, category, tags_json, s.clock, s.clock⟩],
    nextId := s.nextId + 1,
    clock := s.clock + 1 }

/-- The WHERE clause of `search_knowledge`: `title LIKE ? OR content LIKE ?`
with both parameters bound to percent query percent. -/
def rowMatches (q : Str) (r : KnowledgeRow) : Bool :=
  likeMatch (likePattern q) r.title || likeMatch (likePattern q) r.content

/-- The comparison realised by `ORDER BY updated_at DESC`. -/
def recencyLe (a b : KnowledgeRow) : Prop := b.updated_at ≤ a.updated_at

instance : DecidableRel recencyLe := fun a b => Nat.decLe b.updated_at a.updated_at

instance : IsTotal KnowledgeRow recencyLe :=
  ⟨fun a b => Nat.le_total b.updated_at a.updated_at⟩

instance : IsTrans KnowledgeRow recencyLe :=
  ⟨fun _ _ _ h1 h2 => Nat.le_trans h2 h1⟩

/-- `AIKnowledgeDatabase.search_knowledge`: filter by the LIKE clause, order
by `updated_at` descending, truncate to `limit`. -/
def search_knowledge (s : DBState) (q : Str) (lim : Nat) : List KnowledgeRow :=
  (List.insertionSort recencyLe (s.knowledge.filter (rowMatches q))).take lim

/-- `AIKnowledgeDatabase.get_all_knowledge`: every row, ordered by
`updated_at` descending. -/
def get_all_knowledge (s : DBState) : List KnowledgeRow :=
  List.insertionSort recencyLe s.knowledge

/-- `AIKnowledgeDatabase.save_conversation`: unconditional INSERT of one
conversation row stamped with the current time. -/
def save_conversation (s : DBState) (uid : Int) (m r : Str) : DBState :=
  { s with conv := s.conv ++ [⟨uid, m, r, s.clock⟩], clock := s.clock + 1 }

/-- The comparison realised by `ORDER BY timestamp DESC`. -/
def histLe (a b : ConvRow) : Prop := b.timestamp ≤ a.timestamp

instance : DecidableRel histLe := fun a b => Nat.decLe b.timestamp a.timestamp

instance : IsTotal ConvRow histLe :=
  ⟨fun a b => Nat.le_total b.timestamp a.timestamp⟩

instance : IsTrans ConvRow histLe :=
  ⟨fun _ _ _ h1 h2 => Nat.le_trans h2 h1⟩

/-- `AIKnowledgeDatabase.get_user_conversation_history`: rows of one user,
ordered by `timestamp` descending, truncated to `limit`. -/
def get_user_conversation_history (s : DBState) (uid : Int) (lim : Nat) : List ConvRow :=
  (List.insertionSort histLe (s.conv.filter fun c => c.user_id == uid)).take lim

/-- State of one `AIService` instance: its database plus the number of calls
made so far to each external provider. -/
structure SvcState where
  db : DBState
  whisperCalls : Nat
  chatCalls : Nat
  ttsCalls : Nat
deriving DecidableEq

/-- `AIService.speech_to_text`: one transcription provider call; the text on
success, the empty string on any failure. -/
def speech_to_text (transcribe : Nat → Except Str Str) (st : SvcState) : Str × SvcState :=
  let st' := { st with whisperCalls := st.whisperCalls + 1 }
  match transcribe st.whisperCalls with
  | Except.ok t => (t, st')
  | Except.error _ => ([], st')

/-- `AIService.text_to_speech`: one synthesis provider call; true on success,
false on any failure. -/
def text_to_speech (synth : Nat → Bool) (st : SvcState) : Bool × SvcState :=
  (synth st.ttsCalls, { st with ttsCalls := st.ttsCalls + 1 })

/-- The delimiter line of `get_relevant_knowledge`: fifty dashes and a
newline. -/
def sepLine : Str := List.replicate 50 '-' ++ ("\n".data)

/-- Rendering of a nullable text column inside a Python f-string (`None`
prints as the four letters None). -/
def categoryText : Option Str → Str
  | some c => c
  | none => ("None".data)

/-- The tag rendering of `get_relevant_knowledge`: comma-joined when the list
is truthy, the word None otherwise. -/
def tagsText (tl : List Str) : Str :=
  if tl.isEmpty then ("None".data) else List.intercalate (", ".data) tl

/-- The per-entry block appended by the loop of `get_relevant_knowledge`. -/
def itemBlock (r : KnowledgeRow) : Str :=
  ("Title: ".data) ++ r.title ++ ("\n".data) ++
  ("Category: ".data) ++ categoryText r.category ++ ("\n".data) ++
  ("Content: ".data) ++ r.content ++ ("\n".data) ++
  ("Tags: ".data) ++ tagsText r.tagList ++ ("\n".data) ++
  sepLine

/-- `AIService.get_relevant_knowledge`: searches with limit 3; the empty
string when nothing is found, otherwise a fixed header followed by one block
per retrieved entry in store order. -/
def get_relevant_knowledge (db : DBState) (q : Str) : Str :=
  let knowledge_items := search_knowledge db q 3
  if knowledge_items.isEmpty then []
  else ("Relevant AI knowledge:\n\n".data) ++ (knowledge_items.map itemBlock).flatten

/-- The user prompt assembled by `AIService.generate_response`: context plus
question when the knowledge digest is truthy, the question alone otherwise. -/
def build_user_prompt (db : DBState) (user_message : Str) : Str :=
  let relevant_knowledge := get_relevant_knowledge db user_message
  if relevant_knowledge.isEmpty then ("User question: ".data) ++ user_message
  else
    ("Context from knowledge base:\n".data) ++ relevant_knowledge ++
      ("\n\nUser question: ".data) ++ user_message

/-- The fixed apology template of the except branch of `generate_response`. -/
def apologyPre : Str :=
  ("I apologize, but I encountered an error while processing your request: ".data)

/-- Result of one `generate_response` call: the returned text, the user
prompt that was sent to the chat provider, and the updated service state. -/
structure GenOut where
  text : Str
  prompt : Str
  st : SvcState
deriving DecidableEq

/-- `AIService.generate_response` (provider-backed variant): builds the
prompt, makes exactly one chat provider call, on success saves the exchange
when `user_id` is truthy and returns the provider output verbatim, on
failure returns the apology template with the failure reason appended. -/
def generate_response (chat : Nat → Except Str Str) (st : SvcState)
    (user_message : Str) (user_id : Option Int) : GenOut :=
  let user_prompt := build_user_prompt st.db user_message
  let st1 := { st with chatCalls := st.chatCalls + 1 }
  match chat st.chatCalls with
  | Except.ok ai_response =>
    if pyTruthyInt user_id then
      ⟨ai_response, user_prompt,
        { st1 with db := save_conversation st1.db (user_id.getD 0) user_message ai_response }⟩
    else ⟨ai_response, user_prompt, st1⟩
  | Except.error e => ⟨apologyPre ++ e, user_prompt, st1⟩

/-- `AIService.speech_to_speech`: transcribe; abort with the empty result if
no text came back; otherwise generate a reply (no user id is passed) and
synthesize it, returning the reply text on success and the empty result when
synthesis fails. -/
def speech_to_speech (transcribe chat : Nat → Except Str Str) (synth : Nat → Bool)
    (st : SvcState) : Str × SvcState :=
  let r1 := speech_to_text transcribe st
  if r1.1.isEmpty then ([], r1.2)
  else
    let g := generate_response chat r1.2 r1.1 none
    let r3 := text_to_speech synth g.st
    if r3.1 then (g.text, r3.2) else ([], r3.2)

/-- `AIService.generate_simple_response` (rule-based variant of
`src/src/ai_service.py`): case-insensitive phrase matching against the fixed
pattern set, with a templated echo of the raw input as the final branch. -/
def generate_simple_response (user_message : Str) : Str :=
  let message_lower := lowerStr user_message
  if pyIn ("hello".data) message_lower || pyIn ("hi".data) message_lower then
    ("Hello! I'm your AI assistant. How can I help you today?".data)
  else if pyIn ("how are you".data) message_lower then
    ("I'm doing great! Thanks for asking. How can I assist you?".data)
  else if pyIn ("what can you do".data) message_lower then
    ("I can help you with various tasks, answer questions, and convert voice messages. Just let me know what you need!".data)
  else if pyIn ("thank you".data) message_lower || pyIn ("thanks".data) message_lower then
    ("You're welcome! I'm happy to help.".data)
  else if pyIn ("bye".data) message_lower || pyIn ("goodbye".data) message_lower then
    ("Goodbye! Have a great day!".data)
  else
    ("I received your message: '".data) ++ user_message ++
      ("'. This is a simple response. You can enhance this with more sophisticated logic.".data)

/-- The echo template of the final branch of `generate_simple_response`. -/
def echoOf (user_message : Str) : Str :=
  ("I received your message: '".data) ++ user_message ++
    ("'. This is a simple response. You can enhance this with more sophisticated logic.".data)

/-- `AIService.generate_response` (rule-based variant of
`src/src/ai_service.py`): computes the knowledge digest, discards it,
answers with `generate_simple_response`, and saves the exchange when
`user_id` is truthy. -/
def simple_generate_response (db : DBState) (user_message : Str)
    (user_id : Option Int) : Str × DBState :=
  let _relevant_knowledge := get_relevant_knowledge db user_message
  let ai_response := generate_simple_response user_message
  if pyTruthyInt user_id then
    (ai_response, save_conversation db (user_id.getD 0) user_message ai_response)
  else (ai_response, db)

/-! Helper lemmas about the SQLite LIKE matcher. -/

/-- A leading percent lets the matcher start at any suffix of the string. -/
theorem likeMatch_pct (ps s : Str) :
    likeMatch ('%' :: ps) s = true ↔ ∃ t, t <:+ s ∧ likeMatch ps t = true := by
  simp [likeMatch, List.any_eq_true, List.mem_tails]

/-- Unfolding of the matcher on a non-wildcard pattern head. -/
theorem likeMatch_cons_plain (a : Char) (ha1 : a ≠ '%') (ha2 : a ≠ '_') (ps : Str) :
    (likeMatch (a :: ps) [] = false)
    ∧ ∀ c s', likeMatch (a :: ps) (c :: s') =
        ((asciiLower a == asciiLower c) && likeMatch ps s') := by
  constructor
  · simp [likeMatch, ha1, ha2]
  · intro c s'
    simp [likeMatch, ha1, ha2]

/-- A wildcard-free pattern with a trailing percent matches exactly the
strings with a prefix that agrees with the pattern up to ASCII case. -/
theorem likeMatch_plain_pct (q : Str) (hq : ∀ c ∈ q, c ≠ '%' ∧ c ≠ '_') (s : Str) :
    likeMatch (q ++ ['%']) s = true ↔ ∃ u, u <+: s ∧ lowerStr u = lowerStr q := by
  induction q generalizing s with
  | nil =>
    simp only [List.nil_append]
    rw [likeMatch_pct]
    constructor
    · intro _
      exact ⟨[], List.nil_prefix, rfl⟩
    · intro _
      exact ⟨[], List.nil_suffix, rfl⟩
  | cons a q' ih =>
    have ha := hq a (List.mem_cons_self a q')
    have hq' : ∀ c ∈ q', c ≠ '%' ∧ c ≠ '_' := fun c hc => hq c (List.mem_cons_of_mem a hc)
    rw [List.cons_append]
    cases s with
    | nil =>
      rw [(likeMatch_cons_plain a ha.1 ha.2 (q' ++ ['%'])).1]
      constructor
      · intro h
        exact absurd h (by simp)
      · rintro ⟨u, hu, hl⟩
        rw [List.prefix_nil.mp hu] at hl
        exact absurd hl.symm (by simp [lowerStr])
    | cons c s' =>
      rw [(likeMatch_cons_plain a ha.1 ha.2 (q' ++ ['%'])).2 c s']
      rw [Bool.and_eq_true, beq_iff_eq, ih hq']
      constructor
      · rintro ⟨hac, u', hu', hl⟩
        refine ⟨c :: u', List.cons_prefix_cons.mpr ⟨rfl, hu'⟩, ?_⟩
        simp only [lowerStr, List.map_cons] at hl ⊢
        rw [hl, ← hac]
      · rintro ⟨u, hu, hl⟩
        cases u with
        | nil =>
          exact absurd hl (by simp [lowerStr])
        | cons b u' =>
          obtain ⟨hbc, hu'⟩ := List.cons_prefix_cons.mp hu
          simp only [lowerStr, List.map_cons, List.cons.injEq] at hl
          subst hbc
          exact ⟨hl.1.symm, u', hu', hl.2⟩

/-- The pattern built by `search_knowledge` matches exactly when the query is
an ASCII-case-insensitive substring of the column, provided the query itself
uses no LIKE wildcard characters. -/
theorem likeMatch_iff (q : Str) (hq : ∀ c ∈ q, c ≠ '%' ∧ c ≠ '_') (s : Str) :
    likeMatch (likePattern q) s = true ↔ lowerStr q <:+: lowerStr s := by
  rw [likePattern, likeMatch_pct]
  constructor
  · rintro ⟨t, hts, h⟩
    rw [likeMatch_plain_pct q hq] at h
    obtain ⟨u, hut, hl⟩ := h
    have hus : u <:+: s := (hut.isInfix).trans hts.isInfix
    have := hus.map asciiLower
    rw [show u.map asciiLower = lowerStr u from rfl] at this
    rw [hl] at this
    exact this
  · intro h
    obtain ⟨x, y, hxy⟩ := h
    have h1 : s.map asciiLower = x ++ (lowerStr q ++ y) := by
      rw [← List.append_assoc, hxy]; rfl
    rw [List.map_eq_append_iff] at h1
    obtain ⟨s₁, s₂, hs, _, hmap2⟩ := h1
    rw [List.map_eq_append_iff] at hmap2
    obtain ⟨u, v, hs2, hu, _⟩ := hmap2
    refine ⟨s₂, ⟨s₁, hs.symm⟩, ?_⟩
    rw [likeMatch_plain_pct q hq]
    exact ⟨u, ⟨v, hs2.symm⟩, hu⟩

/-- The WHERE clause holds exactly when the query is an ASCII-case-insensitive
substring of the title or of the content (wildcard-free queries). -/
theorem rowMatches_iff (q : Str) (hq : ∀ c ∈ q, c ≠ '%' ∧ c ≠ '_') (r : KnowledgeRow) :
    rowMatches q r = true ↔
      (lowerStr q <:+: lowerStr r.title ∨ lowerStr q <:+: lowerStr r.content) := by
  rw [rowMatches, Bool.or_eq_true, likeMatch_iff q hq, likeMatch_iff q hq]

/-- A list sorted by a numeric key descending that is a permutation of
`l ++ [x]`, where `x` has a strictly larger key than everything in `l`,
begins with `x`. -/
theorem take_one_sorted_of_strict {α : Type} (key : α → Nat) (out l : List α) (x : α)
    (hs : List.Pairwise (fun a b => key b ≤ key a) out)
    (hp : out.Perm (l ++ [x]))
    (hmax : ∀ y ∈ l, key y < key x) :
    out.take 1 = [x] := by
  have hx : x ∈ out := hp.mem_iff.2 (by simp)
  cases out with
  | nil => simp at hx
  | cons h t =>
    by_cases hhx0 : h = x
    · subst hhx0
      rfl
    · exfalso
      have hxt : x ∈ t := (List.mem_cons.1 hx).resolve_left fun hcontra => hhx0 hcontra.symm
      have hhx : key x ≤ key h := (List.pairwise_cons.1 hs).1 x hxt
      have hh : h ∈ l ++ [x] := hp.mem_iff.1 (List.mem_cons_self _ _)
      rcases List.mem_append.1 hh with hhl | hhr
      · exact Nat.lt_irrefl _ (Nat.lt_of_le_of_lt hhx (hmax h hhl))
      · exact hhx0 (by simpa using hhr)

/-- C1 counterexample input: one stored entry with a lowercase title. -/
def c1Row : KnowledgeRow := ⟨1, ("hello".data), ("some text".data), none, none, 0, 0⟩

/-- C1 counterexample input: the store holding exactly `c1Row`. -/
def c1St : DBState := ⟨[c1Row], 2, [], 1⟩

/-- C1 counterexample: the entry is returned for the query HELLO although
HELLO is not a case-sensitive substring of its title or content, because the
SQLite LIKE search of `search_knowledge` compares ASCII characters
case-insensitively.  This refutes the claimed case-sensitive match policy. -/
theorem search_not_case_sensitive :
    c1Row ∈ search_knowledge c1St ("HELLO".data) 5
    ∧ ¬ (("HELLO".data) <:+: c1Row.title ∨ ("HELLO".data) <:+: c1Row.content) := by
  constructor
  · decide
  · decide

/-- C1 (amended): for a query without the LIKE wildcard characters percent
and underscore, and a limit of at least the store size, a stored entry
appears in the result of `search_knowledge` exactly when the query is an
ASCII-case-insensitive substring of its title or of its content; in
particular the empty query matches every entry. -/
theorem search_mem_iff (s : DBState) (q : Str) (lim : Nat) (e : KnowledgeRow)
    (hq : ∀ c ∈ q, c ≠ '%' ∧ c ≠ '_') (he : e ∈ s.knowledge)
    (hlim : s.knowledge.length ≤ lim) :
    e ∈ search_knowledge s q lim ↔
      (lowerStr q <:+: lowerStr e.title ∨ lowerStr q <:+: lowerStr e.content) := by
  rw [search_knowledge, List.take_of_length_le]
  · rw [List.mem_insertionSort, List.mem_filter, rowMatches_iff q hq]
    simp [he]
  · calc (List.insertionSort recencyLe (s.knowledge.filter (rowMatches q))).length
        = (s.knowledge.filter (rowMatches q)).length :=
          (List.perm_insertionSort _ _).length_eq
      _ ≤ s.knowledge.length := List.length_filter_le _ _
      _ ≤ lim := hlim

/-- C1 witness: the amended equivalence evaluated on a concrete store, for
the query HELLO (a match by case folding) and for the empty query. -/
theorem search_mem_iff_witness :
    (c1Row ∈ search_knowledge c1St ("HELLO".data) 5 ↔
      (lowerStr ("HELLO".data) <:+: lowerStr c1Row.title
        ∨ lowerStr ("HELLO".data) <:+: lowerStr c1Row.content))
    ∧ (c1Row ∈ search_knowledge c1St [] 5 ↔
      (lowerStr [] <:+: lowerStr c1Row.title ∨ lowerStr [] <:+: lowerStr c1Row.content)) :=
  ⟨search_mem_iff c1St ("HELLO".data) 5 c1Row (by decide) (by decide) (by decide),
   search_mem_iff c1St [] 5 c1Row (by decide) (by decide) (by decide)⟩

/-- C2: `search_knowledge` returns at most `limit` entries, ordered by
`updated_at` descending, and returns the empty list (rather than failing)
when no stored entry satisfies the match clause. -/
theorem search_bounded_sorted (s : DBState) (q : Str) (lim : Nat) :
    (search_knowledge s q lim).length ≤ lim
    ∧ List.Sorted recencyLe (search_knowledge s q lim)
    ∧ ((∀ e ∈ s.knowledge, rowMatches q e = false) → search_knowledge s q lim = []) := by
  refine ⟨?_, ?_, ?_⟩
  · rw [search_knowledge, List.length_take]
    exact min_le_left _ _
  · rw [search_knowledge]
    exact List.Pairwise.sublist (List.take_sublist _ _) (List.sorted_insertionSort recencyLe _)
  · intro h
    rw [search_knowledge]
    have hf : s.knowledge.filter (rowMatches q) = [] :=
      List.filter_eq_nil_iff.2 fun a ha => by simp [h a ha]
    rw [hf]
    simp

/-- C2 witness: the bound, the ordering and the nothing-matches case
evaluated on a concrete store and query. -/
theorem search_bounded_sorted_witness :
    (search_knowledge c1St ("zzz".data) 5).length ≤ 5
    ∧ List.Sorted recencyLe (search_knowledge c1St ("zzz".data) 5)
    ∧ search_knowledge c1St ("zzz".data) 5 = [] := by
  have h := search_bounded_sorted c1St ("zzz".data) 5
  exact ⟨h.1, h.2.1, h.2.2 (by decide)⟩

/-- C7: saving a conversation and then asking for that user's single most
recent history row returns exactly the record just written. -/
theorem save_then_history (s : DBState) (uid : Int) (m r : Str)
    (hwf : ∀ c ∈ s.conv, c.timestamp < s.clock) :
    get_user_conversation_history (save_conversation s uid m r) uid 1 =
      [⟨uid, m, r, s.clock⟩] := by
  simp only [get_user_conversation_history, save_conversation]
  rw [List.filter_append]
  have hnew : List.filter (fun c => c.user_id == uid) [(⟨uid, m, r, s.clock⟩ : ConvRow)]
      = [⟨uid, m, r, s.clock⟩] := by simp
  rw [hnew]
  apply take_one_sorted_of_strict (fun c : ConvRow => c.timestamp)
  · exact List.sorted_insertionSort histLe _
  · exact List.perm_insertionSort _ _
  · intro y hy
    exact hwf y (List.mem_filter.1 hy).1

/-- C7 witness: the round trip evaluated on a concrete empty store. -/
theorem save_then_history_witness :
    get_user_conversation_history
        (save_conversation ⟨[], 1, [], 0⟩ 7 ("hi there".data) ("hello".data)) 7 1 =
      [⟨7, ("hi there".data), ("hello".data), 0⟩] :=
  save_then_history ⟨[], 1, [], 0⟩ 7 ("hi there".data) ("hello".data) (by decide)

/-- C8: the tag sequence handed to `add_knowledge` (including the empty one)
is reproduced element-for-element and in order by a subsequent read: the
freshly added entry is the first row listed by `get_all_knowledge` and its
decoded tags equal the input, and any row a search returns is either an old
row or carries exactly the stored tag sequence. -/
theorem tags_round_trip (s : DBState) (title content : Str) (category : Option Str)
    (ts : List Str) (hwf : ∀ r ∈ s.knowledge, r.updated_at < s.clock) :
    ((get_all_knowledge (add_knowledge s title content category (some ts))).map
        (fun r => (r.title, r.content, r.category, r.tagList))).take 1 =
      [(title, content, category, ts)]
    ∧ ∀ q lim r', r' ∈ search_knowledge (add_knowledge s title content category (some ts)) q lim →
        r'.tagList = ts ∨ r' ∈ s.knowledge := by
  have htag :
      (⟨s.nextId, title, content, category,
        if pyTruthyList (some ts) then some ts else none, s.clock, s.clock⟩ :
          KnowledgeRow).tagList = ts := by
    cases ts with
    | nil => simp [KnowledgeRow.tagList, pyTruthyList]
    | cons hd tl => simp [KnowledgeRow.tagList, pyTruthyList]
  constructor
  · have hrow : (get_all_knowledge (add_knowledge s title content category (some ts))).take 1 =
        [⟨s.nextId, title, content, category,
          if pyTruthyList (some ts) then some ts else none, s.clock, s.clock⟩] := by
      simp only [get_all_knowledge, add_knowledge]
      apply take_one_sorted_of_strict (fun r : KnowledgeRow => r.updated_at)
      · exact List.sorted_insertionSort recencyLe _
      · exact List.perm_insertionSort _ _
      · exact hwf
    rw [← List.map_take, hrow, List.map_cons, List.map_nil, htag]
  · intro q lim r' hr'
    rw [search_knowledge] at hr'
    have h2 := (List.take_sublist _ _).subset hr'
    have h3 := (List.mem_insertionSort _).1 h2
    have h1 := (List.mem_filter.1 h3).1
    simp only [add_knowledge] at h1
    rcases List.mem_append.1 h1 with h | h
    · exact Or.inr h
    · left
      have : r' = ⟨s.nextId, title, content, category,
          if pyTruthyList (some ts) then some ts else none, s.clock, s.clock⟩ := by
        simpa using h
      rw [this, htag]

/-- C8 witness: the round trip evaluated on a concrete store with a
two-element tag list. -/
theorem tags_round_trip_witness :
    ((get_all_knowledge (add_knowledge ⟨[], 1, [], 0⟩ ("t".data) ("c".data) none
        (some [("a".data), ("b".data)]))).map
          (fun r => (r.title, r.content, r.category, r.tagList))).take 1 =
      [(("t".data), ("c".data), none, [("a".data), ("b".data)])] :=
  (tags_round_trip ⟨[], 1, [], 0⟩ ("t".data) ("c".data) none
    [("a".data), ("b".data)] (by decide)).1

/-- C3 counterexample starting state: empty database, no provider calls. -/
def st0 : SvcState := ⟨⟨[], 1, [], 0⟩, 0, 0, 0⟩

/-- C3 counterexample: with a succeeding provider and a present user id, a
conversation record is written even though the user message is empty, so a
record is not written only when both message and response are non-empty. -/
theorem conversation_written_with_empty_message :
    (generate_response (fun _ => Except.ok ("ok".data)) st0 [] (some 1)).st.db.conv =
      [⟨1, [], ("ok".data), 0⟩] := by decide

/-- C3 (amended): a conversation record is appended exactly when the user id
is truthy (present and nonzero) and the provider call succeeds — regardless
of whether message or response are empty; with a falsy user id, and likewise
on provider failure, the call still returns normally and the conversation
history is unchanged. -/
theorem conversation_save_conditions (chat : Nat → Except Str Str) (st : SvcState)
    (m : Str) (uid : Option Int) :
    (pyTruthyInt uid = false → (generate_response chat st m uid).st.db.conv = st.db.conv)
    ∧ (∀ e, chat st.chatCalls = Except.error e →
        (generate_response chat st m uid).st.db.conv = st.db.conv)
    ∧ (∀ r, pyTruthyInt uid = true → chat st.chatCalls = Except.ok r →
        (generate_response chat st m uid).st.db.conv =
          st.db.conv ++ [⟨uid.getD 0, m, r, st.db.clock⟩]) := by
  refine ⟨?_, ?_, ?_⟩
  · intro h
    cases hc : chat st.chatCalls with
    | ok r => simp [generate_response, hc, h]
    | error e => simp [generate_response, hc]
  · intro e hc
    simp [generate_response, hc]
  · intro r h hc
    simp [generate_response, hc, h, save_conversation]

/-- C3 witness: the three cases evaluated concretely — absent user id, a
failing provider, and a truthy user id with a succeeding provider. -/
theorem conversation_save_conditions_witness :
    (generate_response (fun _ => Except.ok ("ok".data)) st0 ("q".data) none).st.db.conv = []
    ∧ (generate_response (fun _ => Except.error ("down".data)) st0 ("q".data) (some 1)).st.db.conv = []
    ∧ (generate_response (fun _ => Except.ok ("ok".data)) st0 ("q".data) (some 1)).st.db.conv =
        [⟨1, ("q".data), ("ok".data), 0⟩] :=
  ⟨(conversation_save_conditions _ st0 ("q".data) none).1 (by decide),
   (conversation_save_conditions _ st0 ("q".data) (some 1)).2.1 ("down".data) rfl,
   (conversation_save_conditions _ st0 ("q".data) (some 1)).2.2 ("ok".data) (by decide) rfl⟩

/-- C5: on chat provider failure `generate_response` makes exactly one
provider call (no retry), swallows the exception, returns the apology
template with the failure reason appended, and leaves the database
untouched; `speech_to_text` likewise maps transcription provider failure to
the empty-string sentinel instead of raising. -/
theorem provider_failure_policy (chat transcribe : Nat → Except Str Str)
    (st st2 : SvcState) (m : Str) (uid : Option Int) (e e2 : Str) :
    (chat st.chatCalls = Except.error e →
      (generate_response chat st m uid).text = apologyPre ++ e
      ∧ (generate_response chat st m uid).st.chatCalls = st.chatCalls + 1
      ∧ (generate_response chat st m uid).st.db = st.db)
    ∧ (transcribe st2.whisperCalls = Except.error e2 →
        (speech_to_text transcribe st2).1 = []
        ∧ (speech_to_text transcribe st2).2.whisperCalls = st2.whisperCalls + 1) := by
  constructor
  · intro hc
    refine ⟨?_, ?_, ?_⟩ <;> simp [generate_response, hc]
  · intro ht
    constructor <;> simp [speech_to_text, ht]

/-- C5 witness: the failure policy evaluated with concretely failing
providers. -/
theorem provider_failure_policy_witness :
    ((generate_response (fun _ => Except.error ("down".data)) st0 ("q".data) none).text =
        apologyPre ++ ("down".data)
      ∧ (generate_response (fun _ => Except.error ("down".data)) st0 ("q".data) none).st.chatCalls = 1
      ∧ (generate_response (fun _ => Except.error ("down".data)) st0 ("q".data) none).st.db = st0.db)
    ∧ ((speech_to_text (fun _ => Except.error ("bad audio".data)) st0).1 = []
      ∧ (speech_to_text (fun _ => Except.error ("bad audio".data)) st0).2.whisperCalls = 1) :=
  ⟨(provider_failure_policy _ (fun _ => Except.error ("bad audio".data)) st0 st0 ("q".data)
      none ("down".data) ("bad audio".data)).1 rfl,
   (provider_failure_policy (fun _ => Except.error ("down".data)) _ st0 st0 ("q".data)
      none ("down".data) ("bad audio".data)).2 rfl⟩

/-- C6: when transcription yields empty text, `speech_to_speech` stops with
the empty failure signal immediately after the transcription step: the
returned state is the post-transcription state, and the chat and synthesis
call counters are unchanged — zero generation or synthesis provider calls. -/
theorem empty_transcript_aborts (transcribe chat : Nat → Except Str Str)
    (synth : Nat → Bool) (st : SvcState) :
    (speech_to_text transcribe st).1 = [] →
      speech_to_speech transcribe chat synth st = ([], (speech_to_text transcribe st).2)
      ∧ (speech_to_speech transcribe chat synth st).2.chatCalls = st.chatCalls
      ∧ (speech_to_speech transcribe chat synth st).2.ttsCalls = st.ttsCalls := by
  intro h
  have h2 : speech_to_speech transcribe chat synth st = ([], (speech_to_text transcribe st).2) := by
    simp [speech_to_speech, h]
  refine ⟨h2, ?_, ?_⟩ <;> rw [h2] <;>
    cases hc : transcribe st.whisperCalls <;> simp [speech_to_text, hc]

/-- C6 witness: a transcription stub returning empty text aborts the
pipeline with no chat or synthesis calls. -/
theorem empty_transcript_aborts_witness :
    speech_to_speech (fun _ => Except.ok []) (fun _ => Except.ok ("reply".data))
        (fun _ => true) st0 = ([], (speech_to_text (fun _ => Except.ok []) st0).2)
    ∧ (speech_to_speech (fun _ => Except.ok []) (fun _ => Except.ok ("reply".data))
        (fun _ => true) st0).2.chatCalls = 0
    ∧ (speech_to_speech (fun _ => Except.ok []) (fun _ => Except.ok ("reply".data))
        (fun _ => true) st0).2.ttsCalls = 0 :=
  empty_transcript_aborts (fun _ => Except.ok []) (fun _ => Except.ok ("reply".data))
    (fun _ => true) st0 rfl

/-- An occurrence of a pattern whose first element does not occur in `a`
lies entirely within `b`. -/
theorem infix_append_right_of_head {α : Type} (r : α) (m a b : List α)
    (hra : r ∉ a) (h : (r :: m) <:+: a ++ b) : (r :: m) <:+: b := by
  obtain ⟨s, t, hst⟩ := h
  rw [List.append_assoc] at hst
  rcases List.append_eq_append_iff.1 hst with ⟨a', ha, hb⟩ | ⟨c', _, hb⟩
  · cases a' with
    | nil =>
      simp only [List.nil_append] at hb
      exact ⟨[], t, by simp [← hb]⟩
    | cons x xs =>
      exfalso
      have hx : r = x := by
        have h0 := hb
        rw [List.cons_append, List.cons_append] at h0
        exact (List.cons.injEq _ _ _ _ ▸ h0).1
      exact hra (ha ▸ List.mem_append.2 (Or.inr (hx ▸ List.mem_cons_self _ _)))
  · refine ⟨c', t, ?_⟩
    rw [hb]
    simp

/-- C4 counterexample: with an empty store (so no match) and a query that
itself contains the marker text, the prompt does contain the substring
Relevant AI knowledge, refuting the claimed absence in the no-match case. -/
theorem prompt_marker_in_query :
    search_knowledge ⟨[], 1, [], 0⟩ ("Relevant AI knowledge".data) 3 = []
    ∧ ("Relevant AI knowledge".data) <:+:
        build_user_prompt ⟨[], 1, [], 0⟩ ("Relevant AI knowledge".data) := by
  constructor
  · decide
  · decide

/-- C4 (amended): context always comes from `search_knowledge` with limit 3
(the digest is empty exactly when that search is empty); the prompt always
contains the text User question followed by the query; when the search is
empty the prompt is exactly that question line, and then contains the marker
Relevant AI knowledge only if the query itself does; when the search is
non-empty the prompt contains the marker and the content of every retrieved
entry. -/
theorem prompt_construction (db : DBState) (q : Str) :
    ((get_relevant_knowledge db q = [] ↔ search_knowledge db q 3 = [])
      ∧ ("User question: ".data) ++ q <:+: build_user_prompt db q)
    ∧ (search_knowledge db q 3 = [] →
        build_user_prompt db q = ("User question: ".data) ++ q
        ∧ (¬ ("Relevant AI knowledge".data) <:+: q →
            ¬ ("Relevant AI knowledge".data) <:+: build_user_prompt db q))
    ∧ (search_knowledge db q 3 ≠ [] →
        ("Relevant AI knowledge".data) <:+: build_user_prompt db q
        ∧ ∀ e ∈ search_knowledge db q 3, e.content <:+: build_user_prompt db q) := by
  have hiff : get_relevant_knowledge db q = [] ↔ search_knowledge db q 3 = [] := by
    rw [get_relevant_knowledge]
    cases h : (search_knowledge db q 3).isEmpty with
    | true => simp [List.isEmpty_iff.1 h]
    | false =>
      simp only [Bool.false_eq_true, if_false]
      constructor
      · intro hc
        exact absurd (List.append_eq_nil.1 hc).1 (by decide)
      · intro hc
        rw [hc] at h
        simp at h
  have hq_eq : search_knowledge db q 3 = [] →
      build_user_prompt db q = ("User question: ".data) ++ q := by
    intro hs
    rw [build_user_prompt, if_pos]
    rw [List.isEmpty_iff]
    exact hiff.2 hs
  refine ⟨⟨hiff, ?_⟩, ?_, ?_⟩
  · rw [build_user_prompt]
    cases h : (get_relevant_knowledge db q).isEmpty with
    | true =>
      simp only [if_pos]
      exact ⟨[], [], by simp⟩
    | false =>
      simp only [Bool.false_eq_true, if_false]
      exact ⟨("Context from knowledge base:\n".data) ++ get_relevant_knowledge db q ++ ("\n\n".data), [],
        by simp [List.append_assoc]⟩
  · intro hs
    refine ⟨hq_eq hs, ?_⟩
    intro hnq hcontra
    rw [hq_eq hs] at hcontra
    have hm : ("Relevant AI knowledge".data) = 'R' :: ("elevant AI knowledge".data) := by decide
    rw [hm] at hcontra
    have := infix_append_right_of_head 'R' ("elevant AI knowledge".data)
      ("User question: ".data) q (by decide) hcontra
    exact hnq (hm ▸ this)
  · intro hne
    have hgne : get_relevant_knowledge db q ≠ [] := fun hc => hne (hiff.1 hc)
    have hrk : get_relevant_knowledge db q =
        ("Relevant AI knowledge:\n\n".data) ++
          ((search_knowledge db q 3).map itemBlock).flatten := by
      rw [get_relevant_knowledge, if_neg]
      rw [List.isEmpty_iff]
      exact hne
    have hprompt : build_user_prompt db q =
        ("Context from knowledge base:\n".data) ++ get_relevant_knowledge db q ++
          ("\n\nUser question: ".data) ++ q := by
      rw [build_user_prompt, if_neg, List.append_assoc, List.append_assoc]
      rw [List.isEmpty_iff]
      exact hgne
    have hrk_in : get_relevant_knowledge db q <:+: build_user_prompt db q := by
      rw [hprompt]
      exact ⟨("Context from knowledge base:\n".data), ("\n\nUser question: ".data) ++ q,
        by simp [List.append_assoc]⟩
    constructor
    · apply List.IsInfix.trans _ hrk_in
      rw [hrk]
      exact ⟨[], (":\n\n".data) ++ ((search_knowledge db q 3).map itemBlock).flatten,
        by simp [show ("Relevant AI knowledge:\n\n".data) =
          ("Relevant AI knowledge".data) ++ (":\n\n".data) from by decide, List.append_assoc]⟩
    · intro e he
      apply List.IsInfix.trans _ hrk_in
      rw [hrk]
      have hblock : itemBlock e <:+: ((search_knowledge db q 3).map itemBlock).flatten :=
        List.infix_of_mem_flatten (List.mem_map_of_mem itemBlock he)
      have hcontent : e.content <:+: itemBlock e := by
        refine ⟨("Title: ".data) ++ e.title ++ ("\n".data) ++ ("Category: ".data) ++
          categoryText e.category ++ ("\n".data) ++ ("Content: ".data),
          ("\n".data) ++ ("Tags: ".data) ++ tagsText e.tagList ++ ("\n".data) ++ sepLine, ?_⟩
        simp [itemBlock, List.append_assoc]
      apply List.IsInfix.trans (hcontent.trans hblock)
      exact ⟨("Relevant AI knowledge:\n\n".data), [], by simp⟩

/-- C4 witness: the prompt shape evaluated concretely in both the no-match
case (empty store) and the match case (one matching entry). -/
theorem prompt_construction_witness :
    (build_user_prompt ⟨[], 1, [], 0⟩ ("hi".data) = ("User question: ".data) ++ ("hi".data)
      ∧ ¬ ("Relevant AI knowledge".data) <:+: build_user_prompt ⟨[], 1, [], 0⟩ ("hi".data))
    ∧ (("Relevant AI knowledge".data) <:+: build_user_prompt c1St ("hello".data)
      ∧ ∀ e ∈ search_knowledge c1St ("hello".data) 3,
          e.content <:+: build_user_prompt c1St ("hello".data)) :=
  ⟨⟨((prompt_construction ⟨[], 1, [], 0⟩ ("hi".data)).2.1 (by decide)).1,
    ((prompt_construction ⟨[], 1, [], 0⟩ ("hi".data)).2.1 (by decide)).2 (by decide)⟩,
   (prompt_construction c1St ("hello".data)).2.2 (by decide)⟩

/-- The fixed phrase set of `generate_simple_response`, in match order. -/
def cannedPhrases : List Str :=
  [("hello".data), ("hi".data), ("how are you".data), ("what can you do".data),
   ("thank you".data), ("thanks".data), ("bye".data), ("goodbye".data)]

/-- C9 counterexample: two inputs with identical lowercasing produce
different replies, because the fallback echo embeds the raw input verbatim;
so the returned text is not a function of the lowercased input. -/
theorem simple_response_not_function_of_lowercase :
    lowerStr ("ABC".data) = lowerStr ("abc".data)
    ∧ generate_simple_response ("ABC".data) ≠ generate_simple_response ("abc".data) := by
  constructor
  · decide
  · decide

/-- C9 (amended): the rule-based strategy is total; any input whose
lowercasing contains hello gets the canonical greeting (in particular any
input containing hello); any input matching none of the fixed phrases gets
the echo template with its raw input embedded verbatim; and branch selection
is a function of the lowercased input alone — inputs with equal lowercasing
either get the same reply or both land in the echo branch, each echoing its
own raw text. -/
theorem simple_response_branches (m m2 : Str) :
    (pyIn ("hello".data) (lowerStr m) = true →
      generate_simple_response m =
        ("Hello! I'm your AI assistant. How can I help you today?".data))
    ∧ ((∀ p ∈ cannedPhrases, pyIn p (lowerStr m) = false) →
        generate_simple_response m = echoOf m)
    ∧ (lowerStr m = lowerStr m2 →
        generate_simple_response m = generate_simple_response m2
        ∨ (generate_simple_response m = echoOf m
            ∧ generate_simple_response m2 = echoOf m2)) := by
  refine ⟨?_, ?_, ?_⟩
  · intro h
    simp [generate_simple_response, h]
  · intro h
    have h1 := h _ (show ("hello".data) ∈ cannedPhrases by simp [cannedPhrases])
    have h2 := h _ (show ("hi".data) ∈ cannedPhrases by simp [cannedPhrases])
    have h3 := h _ (show ("how are you".data) ∈ cannedPhrases by simp [cannedPhrases])
    have h4 := h _ (show ("what can you do".data) ∈ cannedPhrases by simp [cannedPhrases])
    have h5 := h _ (show ("thank you".data) ∈ cannedPhrases by simp [cannedPhrases])
    have h6 := h _ (show ("thanks".data) ∈ cannedPhrases by simp [cannedPhrases])
    have h7 := h _ (show ("bye".data) ∈ cannedPhrases by simp [cannedPhrases])
    have h8 := h _ (show ("goodbye".data) ∈ cannedPhrases by simp [cannedPhrases])
    simp [generate_simple_response, echoOf, h1, h2, h3, h4, h5, h6, h7, h8]
  · intro h
    simp only [generate_simple_response, echoOf, h]
    split_ifs <;> simp

/-- C9 witness: the greeting branch on the input hello, and the echo branch
on the input xyz. -/
theorem simple_response_branches_witness :
    generate_simple_response ("hello".data) =
      ("Hello! I'm your AI assistant. How can I help you today?".data)
    ∧ generate_simple_response ("xyz".data) = echoOf ("xyz".data) :=
  ⟨(simple_response_branches ("hello".data) []).1 (by decide),
   (simple_response_branches ("xyz".data) []).2.1 (by decide)⟩

/-- C10: under the rule-based deployment variant the returned answer text is
independent of the entire knowledge store (and of the rest of the database):
two runs over arbitrary different stores return identical text for the same
message — the retrieved digest is computed and then discarded. -/
theorem simple_variant_store_independent (k1 k2 : List KnowledgeRow) (n1 n2 : Nat)
    (cv1 cv2 : List ConvRow) (cl1 cl2 : Nat) (m : Str) (uid : Option Int) :
    (simple_generate_response ⟨k1, n1, cv1, cl1⟩ m uid).1 =
      (simple_generate_response ⟨k2, n2, cv2, cl2⟩ m uid).1 := by
  simp only [simple_generate_response]
  cases pyTruthyInt uid <;> simp

end Bot
